import Mathlib

/-!
Verification of the flight_analyzer extraction and enrichment pipeline.

This file gives a shallow embedding of the Python sources under src/ and
proves or refutes the spec claims about them.  Text values are modelled as
lists of characters, numeric values computed by Python floats are modelled
as rationals, and raising code is modelled with explicit Except values.
Each definition mirrors one Python function or expression; the file comments
name the source location it was translated from.
-/

/-- Text values of the Python code, modelled as lists of characters. -/
abbrev Str := List Char

/-- Exceptions raised by the modelled Python code.  The constructors mirror
the concrete Python exception classes that the sources can raise. -/
inductive PyErr where
  | valueError (msg : Str)
  | nameError (missing : Str)
  | keyError (key : Str)
  | validation
  | attributeError
  | httpError (code : Nat) (detail : Str)
  | external (msg : Str)
deriving DecidableEq, Repr

/-- Outcome of one Python call into the browser-automation layer: the call
either returns a value or raises.  Used to model the per-field element
queries of the extractor, whose own exception behaviour (not the browser
behaviour) is what the claims are about. -/
inductive PyRead (α : Type) where
  | ok (v : α)
  | exn
deriving DecidableEq, Repr

/-! ## Search parameters and URL construction

Source: src/app/models/flight.py, class FlightSearchParams, and
src/app/core/flight_scraper.py, FlightScraper._build_google_flights_url. -/

/-- Model of FlightSearchParams (src/app/models/flight.py lines 41-55):
three text fields.  The pydantic validator only constrains date to the
YYYY-MM-DD shape; departure and destination are unconstrained strings. -/
structure FlightSearchParams where
  departure : Str
  destination : Str
  date : Str
deriving DecidableEq, Repr

/-- Model of Python str.upper restricted to basic latin letters, the alphabet
of the airport codes the system handles. -/
def pyUpper (s : Str) : Str := s.map Char.toUpper

/-- Model of Python str.lower restricted to basic latin letters. -/
def pyLower (s : Str) : Str := s.map Char.toLower

/-- Model of the Python expression query.replace(" ", "%20") in
flight_scraper.py line 213: every space character is replaced by the three
characters %20 and every other character is kept. -/
def encodeSpaces (s : Str) : Str :=
  s.flatMap fun c => if c = ' ' then "%20".data else [c]

/-- Model of FlightScraper._build_google_flights_url
(src/app/core/flight_scraper.py lines 200-214): uppercase the two codes,
embed them and the raw date in the fixed query text, replace spaces by %20
and append to the fixed base URL. -/
def build_google_flights_url (p : FlightSearchParams) : Str :=
  "https://www.google.com/travel/flights?q=".data ++
    encodeSpaces ("Flights from ".data ++ pyUpper p.departure ++ " to ".data ++
      pyUpper p.destination ++ " on ".data ++ p.date)

lemma encodeSpaces_append (l₁ l₂ : Str) :
    encodeSpaces (l₁ ++ l₂) = encodeSpaces l₁ ++ encodeSpaces l₂ := by
  simp [encodeSpaces]

lemma encodeSpaces_of_no_space (l : Str) (h : ∀ c ∈ l, c ≠ ' ') :
    encodeSpaces l = l := by
  induction l with
  | nil => rfl
  | cons c cs ih =>
      have hc : c ≠ ' ' := h c (List.mem_cons_self c cs)
      have hrest := ih (fun d hd => h d (List.mem_cons_of_mem c hd))
      simp only [encodeSpaces, List.flatMap_cons, if_neg hc] at *
      simp [hrest]

lemma toUpper_ne_space (c : Char) (h : c ≠ ' ') : c.toUpper ≠ ' ' := by
  unfold Char.toUpper
  dsimp only
  split
  · rename_i hcond
    obtain ⟨h1, h2⟩ := hcond
    have h1n : 97 ≤ c.toNat := h1
    have h2n : c.toNat ≤ 122 := h2
    generalize c.toNat = n at h1n h2n
    interval_cases n <;> decide
  · exact h

lemma pyUpper_no_space (l : Str) (h : ' ' ∉ l) : ∀ c ∈ pyUpper l, c ≠ ' ' := by
  intro c hc
  obtain ⟨d, hd, rfl⟩ := List.mem_map.mp hc
  exact toUpper_ne_space d (fun hd' => h (hd' ▸ hd))

/-- C7: for every search query whose fields contain no space character (true
of all valid queries: three-letter codes and a YYYY-MM-DD date), the
constructed navigation URL is exactly the fixed base followed by the query
text with the uppercased codes and the unmodified date embedded, every space
of the embedded query replaced by %20 and no other character altered; in
particular the URL contains the uppercased codes and the date verbatim. -/
theorem c7_url_contains_codes_and_date (p : FlightSearchParams)
    (hdep : ' ' ∉ p.departure) (hdest : ' ' ∉ p.destination)
    (hdate : ' ' ∉ p.date) :
    build_google_flights_url p =
      "https://www.google.com/travel/flights?q=Flights%20from%20".data ++
        pyUpper p.departure ++ "%20to%20".data ++ pyUpper p.destination ++
        "%20on%20".data ++ p.date ∧
    pyUpper p.departure <:+: build_google_flights_url p ∧
    pyUpper p.destination <:+: build_google_flights_url p ∧
    p.date <:+: build_google_flights_url p := by
  have edep := encodeSpaces_of_no_space _ (pyUpper_no_space _ hdep)
  have edest := encodeSpaces_of_no_space _ (pyUpper_no_space _ hdest)
  have edate : encodeSpaces p.date = p.date :=
    encodeSpaces_of_no_space p.date (fun c hc he => hdate (he ▸ hc))
  have h1 : encodeSpaces "Flights from ".data = "Flights%20from%20".data := by
    decide
  have h2 : encodeSpaces " to ".data = "%20to%20".data := by decide
  have h3 : encodeSpaces " on ".data = "%20on%20".data := by decide
  have hjoin : "https://www.google.com/travel/flights?q=".data ++
      "Flights%20from%20".data =
      "https://www.google.com/travel/flights?q=Flights%20from%20".data := by
    decide
  have hmain : build_google_flights_url p =
      "https://www.google.com/travel/flights?q=Flights%20from%20".data ++
        pyUpper p.departure ++ "%20to%20".data ++ pyUpper p.destination ++
        "%20on%20".data ++ p.date := by
    unfold build_google_flights_url
    simp only [encodeSpaces_append, edep, edest, edate, h1, h2, h3,
      List.append_assoc]
    rw [← List.append_assoc]
    congr 1
  refine ⟨hmain, ?_, ?_, ?_⟩
  · exact ⟨"https://www.google.com/travel/flights?q=Flights%20from%20".data,
      "%20to%20".data ++ pyUpper p.destination ++ "%20on%20".data ++ p.date,
      by simp [hmain]⟩
  · exact ⟨"https://www.google.com/travel/flights?q=Flights%20from%20".data ++
      pyUpper p.departure ++ "%20to%20".data,
      "%20on%20".data ++ p.date, by simp [hmain]⟩
  · exact ⟨"https://www.google.com/travel/flights?q=Flights%20from%20".data ++
      pyUpper p.departure ++ "%20to%20".data ++ pyUpper p.destination ++
      "%20on%20".data, [], by simp [hmain]⟩

/-- Witness for C7: the hypotheses hold and the theorem evaluates at the
query syd to dxb on 2025-08-05. -/
theorem c7_url_witness :
    build_google_flights_url ⟨"syd".data, "dxb".data, "2025-08-05".data⟩ =
      ("https://www.google.com/travel/flights?q=Flights%20from%20SYD" ++
        "%20to%20DXB%20on%202025-08-05").data := by
  have h := c7_url_contains_codes_and_date
    ⟨"syd".data, "dxb".data, "2025-08-05".data⟩
    (by decide) (by decide) (by decide)
  rw [h.1]
  decide

/-! ## Flight extraction

Source: src/app/core/flight_scraper.py, FlightScraper._extract_flight_data
(lines 235-275).  A rendered page is modelled by the outcome of the
query_selector_all call (a list of cards, or a raised error), and each card
by the outcomes of the six per-field reads the code performs on it.  Every
read either yields the text content found (None when the code expects a
missing value) or raises. -/

/-- Model of one list-item card: the outcomes of the per-field element reads
of flight_scraper.py lines 247-257, in source order.  airlineAttr stands for
the query_selector plus get_attribute pair of line 247 (in the source the
attribute call is an unawaited coroutine, a further defect that is outside
the claims treated here; the read is modelled as yielding the attribute
text).  The remaining five stand for the query_selector_eval calls. -/
structure Card where
  airlineAttr : PyRead (Option Str)
  depText : PyRead (Option Str)
  arrText : PyRead (Option Str)
  durText : PyRead (Option Str)
  priceText : PyRead (Option Str)
  stopsText : PyRead (Option Str)
deriving DecidableEq, Repr

/-- Model of the flight dict built at flight_scraper.py lines 260-271. -/
structure FlightRecord where
  airline : Str
  flight_number : Option Str
  departure_airport : Str
  arrival_airport : Str
  departure_time : Str
  arrival_time : Str
  duration : Str
  price : ℚ
  stops : Nat
  source : Str
deriving DecidableEq, Repr

/-- Python truthiness of an optional string: false for None and for the
empty string. -/
def pyTruthy (o : Option Str) : Bool :=
  match o with
  | some t => !t.isEmpty
  | none => false

/-- Model of the Python idiom value or dflt on an optional string. -/
def pyOrStr (o : Option Str) (dflt : Str) : Str :=
  match o with
  | some t => if t.isEmpty then dflt else t
  | none => dflt

/-- Model of Python str.replace(ch, empty): drop every occurrence of ch. -/
def removeAll (ch : Char) (s : Str) : Str := s.filter (fun d => d ≠ ch)

/-- Characters removed by Python str.strip(). -/
def isPySpace (c : Char) : Bool :=
  c == ' ' || c == '\t' || c == '\n' || c == '\r' || c == '\x0b' || c == '\x0c'

/-- Model of Python str.strip(): drop whitespace from both ends. -/
def pyStrip (s : Str) : Str :=
  ((s.dropWhile isPySpace).reverse.dropWhile isPySpace).reverse

/-- Model of the cleaning pipeline of flight_scraper.py line 256:
price_text.replace(dollar, empty).replace(comma, empty).strip(). -/
def cleanPrice (s : Str) : Str := pyStrip (removeAll ',' (removeAll '$' s))

/-- Numeric value of a decimal digit character. -/
def digitVal (c : Char) : Nat := c.toNat - 48

/-- Value of a list of decimal digit characters. -/
def digitsVal (l : Str) : Nat := l.foldl (fun a c => a * 10 + digitVal c) 0

/-- Model of the Python float() conversion at flight_scraper.py line 256 on
plain decimal literals: an optional sign, an integer part and an optional
fractional part.  Inputs outside this shape (the shapes float() also accepts,
scientific and named special values, do not occur as price texts) yield
none, modelling the ValueError float() raises. -/
def pyFloat? (s : Str) : Option ℚ :=
  let signed : ℚ × Str :=
    match s with
    | '-' :: rest => (-1, rest)
    | '+' :: rest => (1, rest)
    | _ => (1, s)
  let ip := signed.2.takeWhile Char.isDigit
  let rest := signed.2.dropWhile Char.isDigit
  match rest with
  | [] => if ip.isEmpty then none else some (signed.1 * digitsVal ip)
  | '.' :: frac =>
      if frac.all Char.isDigit ∧ (ip ≠ [] ∨ frac ≠ []) then
        some (signed.1 *
          ((digitsVal ip : ℚ) + (digitsVal frac : ℚ) / (10 : ℚ) ^ frac.length))
      else none
  | _ => none

/-- Model of dep.split(narrow-no-break-space)[0] at flight_scraper.py
line 263: the portion of the text before the first U+202F separator. -/
def splitNbspFirst (s : Str) : Str := s.takeWhile (fun c => c ≠ '\u202F')

/-- Model of the airport-code fragment expression of lines 263-264:
dep.split(separator)[0] if dep else empty. -/
def airportFragment (o : Option Str) : Str :=
  if pyTruthy o then splitNbspFirst (o.getD []) else []

/-- Model of the stop classification at flight_scraper.py line 258:
stops = 0 if stops_text and nonstop in stops_text.lower() else 1. -/
def stopsFromText (o : Option Str) : Nat :=
  match o with
  | some t => if t ≠ [] ∧ "nonstop".data <:+: pyLower t then 0 else 1
  | none => 1

/-- Model of one query_selector_eval call: propagate the raised error, else
return the value. -/
def readEval (r : PyRead (Option Str)) : Except PyErr (Option Str) :=
  match r with
  | .ok v => Except.ok v
  | .exn => Except.error (PyErr.external "query_selector_eval".data)

/-- Model of the per-card body of the extraction loop, flight_scraper.py
lines 246-272.  Only the airline read of line 247 sits in its own
try/except (a failure there leaves airline as None); every other field read,
and the float() conversion of line 256, raises out of the loop body.  The
record mirrors the dict literal of lines 260-271. -/
def extractCard (card : Card) : Except PyErr FlightRecord := do
  let airline : Option Str :=
    match card.airlineAttr with
    | .ok v => v
    | .exn => none
  let dep ← readEval card.depText
  let arr ← readEval card.arrText
  let dur ← readEval card.durText
  let price_text ← readEval card.priceText
  let price : Option ℚ ←
    match price_text with
    | some t =>
        if t.isEmpty then Except.ok none
        else
          match pyFloat? (cleanPrice t) with
          | some q => Except.ok (some q)
          | none =>
              Except.error
                (PyErr.valueError "could not convert string to float".data)
    | none => Except.ok none
  let stops_text ← readEval card.stopsText
  Except.ok
    { airline := pyOrStr airline "Unknown".data
      flight_number := none
      departure_airport := airportFragment dep
      arrival_airport := airportFragment arr
      departure_time := pyOrStr dep []
      arrival_time := pyOrStr arr []
      duration := pyOrStr dur []
      price := price.getD 0
      stops := stopsFromText stops_text
      source := "scraper".data }

/-- Model of the extraction loop over cards[:30], flight_scraper.py
line 245: each successful card body appends its record; the first raising
card body aborts the loop, and the pair carries the records appended before
the abort together with the raised error. -/
def extractCards : List Card → List FlightRecord × Option PyErr
  | [] => ([], none)
  | c :: cs =>
      match extractCard c with
      | Except.ok r =>
          let rest := extractCards cs
          (r :: rest.1, rest.2)
      | Except.error e => ([], some e)

/-- Model of the try block of _extract_flight_data, lines 243-272: the
query_selector_all call either raises (nothing appended) or yields the
cards, of which the first 30 are processed. -/
def extract_try_block (page : PyRead (List Card)) :
    List FlightRecord × Option PyErr :=
  match page with
  | .ok cards => extractCards (cards.take 30)
  | .exn => ([], some (PyErr.external "query_selector_all".data))

/-- Model of FlightScraper._extract_flight_data, lines 235-275: every raised
error inside the try block is caught by the handler of lines 273-274, which
logs it and falls through to return the records appended so far. -/
def extract_flight_data (page : PyRead (List Card)) : List FlightRecord :=
  (extract_try_block page).1

lemma extractCards_spec (l : List Card) :
    ∃ pfx rest : List Card, l = pfx ++ rest ∧
      (∀ c ∈ pfx, ∃ r, extractCard c = Except.ok r) ∧
      (extractCards l).1 =
        pfx.filterMap (fun c => (extractCard c).toOption) ∧
      (rest = [] ∨ ∃ c cs e, rest = c :: cs ∧ extractCard c = Except.error e) := by
  induction l with
  | nil => exact ⟨[], [], rfl, by simp, by simp [extractCards], Or.inl rfl⟩
  | cons c cs ih =>
      obtain ⟨pfx, rest, heq, hall, hres, hlast⟩ := ih
      cases hc : extractCard c with
      | ok r =>
          refine ⟨c :: pfx, rest, by simp [heq], ?_, ?_, hlast⟩
          · intro d hd
            rcases List.mem_cons.mp hd with h | h
            · exact ⟨r, h ▸ hc⟩
            · exact hall d h
          · simp [extractCards, hc, hres, Except.toOption]
      | error e =>
          exact ⟨[], c :: cs, rfl, by simp, by simp [extractCards, hc],
            Or.inr ⟨c, cs, e, rfl, hc⟩⟩

/-- C5: the extractor never raises.  A raised query_selector_all call (total
parse failure) yields the empty list, and in every other case the result is
the list of records built from the longest per-card-successful previous
portion of the first thirty cards: the remaining cards, when any, start with
a card whose body raised, and that error is caught, not propagated. -/
theorem c5_extract_never_raises_returns_partial :
    extract_flight_data PyRead.exn = [] ∧
    ∀ cards : List Card, ∃ pfx rest : List Card,
      cards.take 30 = pfx ++ rest ∧
      (∀ c ∈ pfx, ∃ r, extractCard c = Except.ok r) ∧
      extract_flight_data (PyRead.ok cards) =
        pfx.filterMap (fun c => (extractCard c).toOption) ∧
      (rest = [] ∨ ∃ c cs e, rest = c :: cs ∧ extractCard c = Except.error e) := by
  exact ⟨rfl, fun cards => extractCards_spec (cards.take 30)⟩

/-- Witness for C5: the total-failure branch of the theorem at the raising
page read. -/
theorem c5_witness : extract_flight_data PyRead.exn = [] :=
  c5_extract_never_raises_returns_partial.1

/-- C6: a stop-indicator text containing the lowercase-normalised substring
nonstop yields zero stops; every other non-empty text yields one stop; and
the stops field of every extracted record is exactly this classification of
the text the stop-indicator read of its card returned. -/
theorem c6_stops_classification :
    (∀ s : Str, "nonstop".data <:+: pyLower s → stopsFromText (some s) = 0) ∧
    (∀ s : Str, s ≠ [] → ¬ ("nonstop".data <:+: pyLower s) →
      stopsFromText (some s) = 1) ∧
    ∀ (c : Card) (t : Option Str) (r : FlightRecord),
      c.stopsText = PyRead.ok t → extractCard c = Except.ok r →
      r.stops = stopsFromText t := by
  refine ⟨?_, ?_, ?_⟩
  · intro s h
    have hne : s ≠ [] := by
      intro he
      subst he
      have := h.length_le
      simp [pyLower] at this
    simp [stopsFromText, hne, h]
  · intro s hne hni
    simp [stopsFromText, hni]
  · intro c t r hst hok
    obtain ⟨a, d, ar, du, pt, st⟩ := c
    simp only at hst
    subst hst
    cases d with
    | exn => simp [extractCard, readEval, Bind.bind, Except.bind] at hok
    | ok dv =>
    cases ar with
    | exn => simp [extractCard, readEval, Bind.bind, Except.bind] at hok
    | ok av =>
    cases du with
    | exn => simp [extractCard, readEval, Bind.bind, Except.bind] at hok
    | ok duv =>
    cases pt with
    | exn => simp [extractCard, readEval, Bind.bind, Except.bind] at hok
    | ok ptv =>
    cases ptv with
    | none =>
        simp [extractCard, readEval, Bind.bind, Except.bind] at hok
        subst hok
        rfl
    | some tt =>
        by_cases htt : tt.isEmpty
        · simp [extractCard, readEval, Bind.bind, Except.bind, htt] at hok
          subst hok
          rfl
        · cases hpf : pyFloat? (cleanPrice tt) with
          | none =>
              simp [extractCard, readEval, Bind.bind, Except.bind, htt, hpf]
                at hok
          | some q =>
              simp [extractCard, readEval, Bind.bind, Except.bind, htt, hpf]
                at hok
              subst hok
              rfl

/-- Witness for C6: the theorem applied to a capitalised Nonstop text and to
a one-stop text. -/
theorem c6_witness :
    stopsFromText (some "Nonstop overnight".data) = 0 ∧
    stopsFromText (some "1 stop".data) = 1 :=
  ⟨c6_stops_classification.1 "Nonstop overnight".data (by decide),
    c6_stops_classification.2.1 "1 stop".data (by decide) (by decide)⟩

/-- Card whose price element text is present but not numeric; all other
reads succeed. -/
def cardPriceNA : Card :=
  { airlineAttr := PyRead.ok (some "Qantas".data)
    depText := PyRead.ok (some "9:00 AM".data)
    arrText := PyRead.ok (some "5:00 PM".data)
    durText := PyRead.ok (some "14 hr".data)
    priceText := PyRead.ok (some "N/A".data)
    stopsText := PyRead.ok (some "Nonstop".data) }

/-- Card whose price element is absent (read yields None); all other reads
succeed. -/
def cardNoPrice : Card :=
  { airlineAttr := PyRead.ok (some "Emirates".data)
    depText := PyRead.ok (some "10:15 AM".data)
    arrText := PyRead.ok (some "6:45 PM".data)
    durText := PyRead.ok (some "13 hr".data)
    priceText := PyRead.ok none
    stopsText := PyRead.ok (some "1 stop".data) }

/-- Fully well-formed card: every read succeeds and the price parses. -/
def cardGood : Card :=
  { airlineAttr := PyRead.ok (some "Qatar Airways".data)
    depText := PyRead.ok (some "11:05 AM".data)
    arrText := PyRead.ok (some "7:20 PM".data)
    durText := PyRead.ok (some "15 hr".data)
    priceText := PyRead.ok (some "450".data)
    stopsText := PyRead.ok (some "1 stop".data) }

/-- Card whose price text is unparsable; used before cardGood to show the
loss of subsequent items. -/
def cardBadPrice : Card :=
  { airlineAttr := PyRead.ok (some "Etihad".data)
    depText := PyRead.ok (some "8:30 AM".data)
    arrText := PyRead.ok (some "4:10 PM".data)
    durText := PyRead.ok (some "14 hr".data)
    priceText := PyRead.ok (some "Price unavailable".data)
    stopsText := PyRead.ok (some "Nonstop".data) }

/-- Counterexample for C3: a card whose price text N/A fails to parse is not
completed with price 0.0; the float() conversion raises a ValueError that
the loop-level handler turns into dropping the record, so the extractor
returns the empty list for a one-card page. -/
theorem c3_counterexample :
    extract_flight_data (PyRead.ok [cardPriceNA]) = [] ∧
    extractCard cardPriceNA =
      Except.error (PyErr.valueError "could not convert string to float".data) := by
  exact ⟨rfl, rfl⟩

/-- Reads other than the price read all succeed on the card. -/
def otherReadsOk (c : Card) : Prop :=
  (∃ v, c.depText = PyRead.ok v) ∧ (∃ v, c.arrText = PyRead.ok v) ∧
    (∃ v, c.durText = PyRead.ok v) ∧ (∃ v, c.stopsText = PyRead.ok v)

/-- C3 as amended: when the price element is absent or empty the record is
completed with price exactly 0.0, but a present price text that fails to
parse raises a ValueError out of the loop body: the record is dropped along
with every later card, the records built earlier being returned by the
loop-level handler. -/
theorem c3_amended_price_absent_vs_unparsable (c : Card)
    (hre : otherReadsOk c) :
    ((c.priceText = PyRead.ok none ∨ c.priceText = PyRead.ok (some [])) →
      ∃ r, extractCard c = Except.ok r ∧ r.price = 0) ∧
    (∀ t, c.priceText = PyRead.ok (some t) → ¬ t.isEmpty →
      pyFloat? (cleanPrice t) = none →
      extractCard c =
        Except.error (PyErr.valueError "could not convert string to float".data) ∧
      ∀ cs, extractCards (c :: cs) =
        ([], some (PyErr.valueError "could not convert string to float".data))) := by
  obtain ⟨⟨dv, hd⟩, ⟨av, ha⟩, ⟨duv, hdu⟩, ⟨sv, hs⟩⟩ := hre
  obtain ⟨a, d, ar, du, pt, st⟩ := c
  simp only at hd ha hdu hs
  subst hd
  subst ha
  subst hdu
  subst hs
  constructor
  · rintro (hp | hp) <;> simp only at hp <;> subst hp <;> exact ⟨_, rfl, rfl⟩
  · intro t hp htt hpf
    simp only at hp
    subst hp
    have herr : extractCard
        ⟨a, PyRead.ok dv, PyRead.ok av, PyRead.ok duv,
          PyRead.ok (some t), PyRead.ok sv⟩ =
        Except.error (PyErr.valueError "could not convert string to float".data) := by
      simp [extractCard, readEval, Bind.bind, Except.bind, htt, hpf]
    exact ⟨herr, fun cs => by simp [extractCards, herr]⟩

/-- Witness for C3 as amended: on the absent-price card the record completes
with price zero, and the unparsable-price one-card page extracts nothing. -/
theorem c3_amended_witness :
    (∃ r, extractCard cardNoPrice = Except.ok r ∧ r.price = 0) ∧
    extractCards [cardPriceNA] =
      ([], some (PyErr.valueError "could not convert string to float".data)) := by
  constructor
  · exact (c3_amended_price_absent_vs_unparsable cardNoPrice
      ⟨⟨_, rfl⟩, ⟨_, rfl⟩, ⟨_, rfl⟩, ⟨_, rfl⟩⟩).1 (Or.inl rfl)
  · exact ((c3_amended_price_absent_vs_unparsable cardPriceNA
      ⟨⟨_, rfl⟩, ⟨_, rfl⟩, ⟨_, rfl⟩, ⟨_, rfl⟩⟩).2 "N/A".data rfl
      (by decide) (by decide)).2 []

/-- Counterexample for C4: the failing price read of the first card aborts
the whole loop, so the second, fully well-formed card is never extracted,
although on its own it extracts fine. -/
theorem c4_counterexample :
    extract_flight_data (PyRead.ok [cardBadPrice, cardGood]) = [] ∧
    (∃ r, extractCard cardGood = Except.ok r) := by
  exact ⟨rfl, ⟨_, rfl⟩⟩

lemma extractCard_error_of_read_exn (c : Card)
    (h : c.depText = PyRead.exn ∨ c.arrText = PyRead.exn ∨
      c.durText = PyRead.exn ∨ c.priceText = PyRead.exn ∨
      c.stopsText = PyRead.exn) :
    ∃ e, extractCard c = Except.error e := by
  obtain ⟨a, d, ar, du, pt, st⟩ := c
  simp only at h
  cases d with
  | exn => exact ⟨_, rfl⟩
  | ok dv =>
  cases ar with
  | exn => exact ⟨_, rfl⟩
  | ok av =>
  cases du with
  | exn => exact ⟨_, rfl⟩
  | ok duv =>
  cases pt with
  | exn => exact ⟨_, rfl⟩
  | ok ptv =>
  cases st with
  | ok sv => simp at h
  | exn =>
      cases ptv with
      | none => exact ⟨_, rfl⟩
      | some tt =>
          by_cases htt : tt.isEmpty
          · refine ⟨PyErr.external "query_selector_eval".data, ?_⟩
            simp [extractCard, readEval, Bind.bind, Except.bind, htt]
          · cases hpf : pyFloat? (cleanPrice tt) with
            | none =>
                refine ⟨PyErr.valueError "could not convert string to float".data, ?_⟩
                simp [extractCard, readEval, Bind.bind, Except.bind, htt, hpf]
            | some q =>
                refine ⟨PyErr.external "query_selector_eval".data, ?_⟩
                simp [extractCard, readEval, Bind.bind, Except.bind, htt, hpf]

/-- C4 as amended: only the airline read is isolated by its own handler (a
raising airline read behaves exactly like an absent attribute, leaving every
other field and later cards unaffected); a raising read of any of the five
other fields aborts the loop body, so the current record and every later
card are dropped. -/
theorem c4_amended_only_airline_isolated :
    (∀ c : Card, extractCard { c with airlineAttr := PyRead.exn } =
        extractCard { c with airlineAttr := PyRead.ok none }) ∧
    (∀ (c : Card) (cs : List Card),
      (c.depText = PyRead.exn ∨ c.arrText = PyRead.exn ∨
        c.durText = PyRead.exn ∨ c.priceText = PyRead.exn ∨
        c.stopsText = PyRead.exn) →
      ∃ e, extractCards (c :: cs) = ([], some e)) := by
  constructor
  · intro c
    rfl
  · intro c cs h
    obtain ⟨e, he⟩ := extractCard_error_of_read_exn c h
    exact ⟨e, by simp [extractCards, he]⟩

/-- Witness for C4 as amended: a raising stop-indicator read on an otherwise
well-formed first card loses the whole page. -/
theorem c4_amended_witness :
    ∃ e, extractCards [{ cardGood with stopsText := PyRead.exn }, cardGood] =
      ([], some e) :=
  c4_amended_only_airline_isolated.2 { cardGood with stopsText := PyRead.exn }
    [cardGood] (Or.inr (Or.inr (Or.inr (Or.inr rfl))))

/-! ## AI response processing

Source: src/app/core/gemini.py, GeminiAnalyzer._process_gemini_response
(lines 166-218), together with the pydantic models of
src/app/models/analysis.py that the conversion constructs.  The JSON value
parsed from the completion text is modelled by an explicit Json type; the
json.loads call itself is modelled by the parse outcome handed to
process_gemini_response, a raised json.JSONDecodeError being the error
case. -/

/-- JSON values, the possible results of json.loads.  Integral and floating
numbers are modelled together as rationals. -/
inductive Json where
  | null
  | bool (b : Bool)
  | num (q : ℚ)
  | str (s : Str)
  | arr (elems : List Json)
  | obj (fields : List (Str × Json))

/-- Lookup of a key in a JSON object field list, first binding wins. -/
def jLookup (fields : List (Str × Json)) (k : Str) : Option Json :=
  (fields.find? (fun kv => kv.1 == k)).map (fun kv => kv.2)

/-- Model of the dict requirement of a Python attribute call such as .get or
.items on a parsed value: any non-object raises AttributeError. -/
def asObjFields (j : Json) : Except PyErr (List (Str × Json)) :=
  match j with
  | .obj fields => Except.ok fields
  | _ => Except.error PyErr.attributeError

/-- Pydantic validation of a dict-typed value or of keyword unpacking of a
nested record: any non-object fails the construction. -/
def asDict (j : Json) : Except PyErr (List (Str × Json)) :=
  match j with
  | .obj fields => Except.ok fields
  | _ => Except.error PyErr.validation

/-- Pydantic validation of a str field. -/
def asStr (j : Json) : Except PyErr Str :=
  match j with
  | .str s => Except.ok s
  | _ => Except.error PyErr.validation

/-- Pydantic validation of an Optional str field. -/
def asOptStr (j : Json) : Except PyErr (Option Str) :=
  match j with
  | .str s => Except.ok (some s)
  | .null => Except.ok none
  | _ => Except.error PyErr.validation

/-- Pydantic validation of a float field. -/
def asFloat (j : Json) : Except PyErr ℚ :=
  match j with
  | .num q => Except.ok q
  | _ => Except.error PyErr.validation

/-- Pydantic validation of an int field. -/
def asInt (j : Json) : Except PyErr ℤ :=
  match j with
  | .num q => if q.den = 1 then Except.ok q.num else Except.error PyErr.validation
  | _ => Except.error PyErr.validation

/-- List shape required where the code iterates over a parsed value that the
schema declares as a list (Python iteration over other shapes diverges from
the schema and is outside the inputs considered here). -/
def asArr (j : Json) : Except PyErr (List Json) :=
  match j with
  | .arr xs => Except.ok xs
  | _ => Except.error PyErr.validation

/-- Pydantic validation of a List of str field. -/
def asStrList (j : Json) : Except PyErr (List Str) :=
  match j with
  | .arr xs => xs.mapM asStr
  | _ => Except.error PyErr.validation

/-- Required key of a pydantic model: a missing key fails construction. -/
def requireField (fields : List (Str × Json)) (k : Str) : Except PyErr Json :=
  match jLookup fields k with
  | some v => Except.ok v
  | none => Except.error PyErr.validation

/-- Model of RecommendationType, analysis.py lines 6-9. -/
inductive RecommendationType where
  | bestValue
  | goodOption
  | considerAlternatives

/-- Pydantic coercion of a string into the RecommendationType enum. -/
def recommendationTypeOf (s : Str) : Except PyErr RecommendationType :=
  if s = "Best Value".data then Except.ok RecommendationType.bestValue
  else if s = "Good Option".data then Except.ok RecommendationType.goodOption
  else if s = "Consider Alternatives".data then
    Except.ok RecommendationType.considerAlternatives
  else Except.error PyErr.validation

/-- Model of FlightRecommendation, analysis.py lines 11-22. -/
structure FlightRecommendation where
  airline : Str
  flight_number : Option Str
  price : ℚ
  duration : Str
  departure_time : Str
  arrival_time : Str
  stops : ℤ
  recommendation_type : RecommendationType
  value_score : ℚ
  notes : Option Str

/-- Construction FlightRecommendation(**flight) with pydantic validation:
all fields except notes are required, and value_score carries the declared
bound ge 0, le 100 (analysis.py line 21). -/
def FlightRecommendation.fromJson (j : Json) :
    Except PyErr FlightRecommendation := do
  let fields ← asDict j
  let airline ← asStr (← requireField fields "airline".data)
  let flight_number ← asOptStr (← requireField fields "flight_number".data)
  let price ← asFloat (← requireField fields "price".data)
  let duration ← asStr (← requireField fields "duration".data)
  let departure_time ← asStr (← requireField fields "departure_time".data)
  let arrival_time ← asStr (← requireField fields "arrival_time".data)
  let stops ← asInt (← requireField fields "stops".data)
  let rectype ← recommendationTypeOf
    (← asStr (← requireField fields "recommendation_type".data))
  let value_score ← asFloat (← requireField fields "value_score".data)
  if 0 ≤ value_score ∧ value_score ≤ 100 then
    let notes ←
      match jLookup fields "notes".data with
      | some v => asOptStr v
      | none => Except.ok none
    Except.ok
      { airline, flight_number, price, duration, departure_time, arrival_time,
        stops, recommendation_type := rectype, value_score, notes }
  else Except.error PyErr.validation

/-- Model of PriceAnalysis, analysis.py lines 24-30. -/
structure PriceAnalysis where
  min : ℚ
  max : ℚ
  average : ℚ
  median : ℚ
  currency : Str

/-- Construction PriceAnalysis(**v) with pydantic validation. -/
def PriceAnalysis.fromJson (j : Json) : Except PyErr PriceAnalysis := do
  let fields ← asDict j
  let mn ← asFloat (← requireField fields "min".data)
  let mx ← asFloat (← requireField fields "max".data)
  let avg ← asFloat (← requireField fields "average".data)
  let med ← asFloat (← requireField fields "median".data)
  let currency ←
    match jLookup fields "currency".data with
    | some v => asStr v
    | none => Except.ok "USD".data
  Except.ok { min := mn, max := mx, average := avg, median := med, currency }

/-- Model of AirlineAnalysis, analysis.py lines 32-40. -/
structure AirlineAnalysis where
  airline : Str
  average_price : ℚ
  average_duration : Str
  average_value_score : ℚ
  total_flights : ℤ
  recommendation : Str
  best_flight : Option Json

/-- Construction AirlineAnalysis(**airline) with pydantic validation. -/
def AirlineAnalysis.fromJson (j : Json) : Except PyErr AirlineAnalysis := do
  let fields ← asDict j
  let airline ← asStr (← requireField fields "airline".data)
  let average_price ← asFloat (← requireField fields "average_price".data)
  let average_duration ← asStr (← requireField fields "average_duration".data)
  let average_value_score ←
    asFloat (← requireField fields "average_value_score".data)
  let total_flights ← asInt (← requireField fields "total_flights".data)
  let recommendation ← asStr (← requireField fields "recommendation".data)
  let best_flight := jLookup fields "best_flight".data
  Except.ok (AirlineAnalysis.mk airline average_price average_duration
    average_value_score total_flights recommendation best_flight)

/-- Model of FlightInsights, analysis.py lines 42-52.  The generated_at
timestamp field, filled by a default factory and irrelevant to the claims,
is omitted. -/
structure FlightInsights where
  summary : Str
  key_findings : List Str
  price_analysis : List (Str × PriceAnalysis)
  airline_comparison : List AirlineAnalysis
  best_value_flights : List FlightRecommendation
  cheapest_flights : List FlightRecommendation
  fastest_flights : List FlightRecommendation
  booking_recommendations : List Str

/-- Model of AnalysisResponse, analysis.py lines 61-67.  The message field,
defaulted to None and never set by the modelled code, is omitted. -/
structure AnalysisResponse where
  success : Bool
  insights : FlightInsights
  enhanced_data : List (List (Str × Json))
  metrics : List (Str × Json)

/-- Model of the try-block body of _process_gemini_response, gemini.py
lines 170-209: project the insights, enhanced_data and metrics keys with
empty-collection defaults, convert the nested collections through the
pydantic models, and build the AnalysisResponse.  Every raised conversion
error surfaces as the Except error. -/
def process_body (result : Json) : Except PyErr AnalysisResponse := do
  let resultFields ← asObjFields result
  let insightsJ := (jLookup resultFields "insights".data).getD (Json.obj [])
  let enhancedJ := (jLookup resultFields "enhanced_data".data).getD (Json.arr [])
  let metricsJ := (jLookup resultFields "metrics".data).getD (Json.obj [])
  let insightsFields ← asObjFields insightsJ
  let summary ←
    asStr ((jLookup insightsFields "summary".data).getD (Json.str []))
  let key_findings ←
    asStrList ((jLookup insightsFields "key_findings".data).getD (Json.arr []))
  let paFields ←
    asObjFields ((jLookup insightsFields "price_analysis".data).getD (Json.obj []))
  let price_analysis ← paFields.mapM (fun kv => do
    let pa ← PriceAnalysis.fromJson kv.2
    pure (kv.1, pa))
  let acElems ←
    asArr ((jLookup insightsFields "airline_comparison".data).getD (Json.arr []))
  let airline_comparison ← acElems.mapM AirlineAnalysis.fromJson
  let bvElems ←
    asArr ((jLookup insightsFields "best_value_flights".data).getD (Json.arr []))
  let best_value_flights ← bvElems.mapM FlightRecommendation.fromJson
  let chElems ←
    asArr ((jLookup insightsFields "cheapest_flights".data).getD (Json.arr []))
  let cheapest_flights ← chElems.mapM FlightRecommendation.fromJson
  let faElems ←
    asArr ((jLookup insightsFields "fastest_flights".data).getD (Json.arr []))
  let fastest_flights ← faElems.mapM FlightRecommendation.fromJson
  let booking_recommendations ←
    asStrList ((jLookup insightsFields "booking_recommendations".data).getD
      (Json.arr []))
  let enhancedElems ← asArr enhancedJ
  let enhanced_data ← enhancedElems.mapM asDict
  let metrics ← asDict metricsJ
  Except.ok
    { success := true
      insights :=
        { summary, key_findings, price_analysis, airline_comparison,
          best_value_flights, cheapest_flights, fastest_flights,
          booking_recommendations }
      enhanced_data
      metrics }

/-- Model of _process_gemini_response, gemini.py lines 166-218.  The
argument stands for the result of json.loads on the completion text: a
raised json.JSONDecodeError is the error case, turned by the first handler
(lines 211-214) into a raised ValueError.  Any error raised by the
conversion body lands in the generic handler (lines 215-218), whose logging
line references the name traceback, which gemini.py never imports: the
handler itself raises NameError instead of the ValueError it goes on to
construct. -/
def process_gemini_response (parsed : Except Unit Json) :
    Except PyErr AnalysisResponse :=
  match parsed with
  | .error _ =>
      Except.error
        (PyErr.valueError "Failed to parse Gemini response as JSON".data)
  | .ok result =>
      match process_body result with
      | .ok resp => Except.ok resp
      | .error _ => Except.error (PyErr.nameError "traceback".data)

/-- Recommendation entry that is fully schema-conformant except for a
value_score of 150, outside the declared 0 to 100 bound. -/
def recJsonWithScore (score : ℚ) : Json :=
  Json.obj
    [("airline".data, Json.str "Qantas".data),
      ("flight_number".data, Json.null),
      ("price".data, Json.num 450),
      ("duration".data, Json.str "14 hr".data),
      ("departure_time".data, Json.str "9:00 AM".data),
      ("arrival_time".data, Json.str "5:00 PM".data),
      ("stops".data, Json.num 0),
      ("recommendation_type".data, Json.str "Best Value".data),
      ("value_score".data, Json.num score)]

/-- Parsed completion whose only defect is an out-of-range value_score on
the single best_value_flights entry. -/
def completionWithScore (score : ℚ) : Json :=
  Json.obj
    [("insights".data,
      Json.obj [("best_value_flights".data, Json.arr [recJsonWithScore score])])]

/-- C9: an unparsable completion fails with the raised ValueError of the
JSONDecodeError handler (the MalformedResponse of the spec) and yields no
bundle, and a parsable completion with a value_score outside 0 to 100 also
yields no bundle; but the latter fails with a NameError raised by the
logging line of the generic handler (traceback is not imported in
gemini.py), not with the MalformedResponse error the handler goes on to
construct.  The same completion with the score inside the bound validates,
isolating the bound violation as the cause. -/
theorem c9_validation_fails_wholesale :
    process_gemini_response (Except.error ()) =
      Except.error
        (PyErr.valueError "Failed to parse Gemini response as JSON".data) ∧
    process_gemini_response (Except.ok (completionWithScore 150)) =
      Except.error (PyErr.nameError "traceback".data) ∧
    ∃ resp, process_gemini_response (Except.ok (completionWithScore 50)) =
      Except.ok resp := by
  refine ⟨rfl, rfl, ⟨_, rfl⟩⟩

/-! ## Basic analysis fallback

Source: src/app/api/endpoints/flights.py, _perform_basic_analysis
(lines 167-213).  The pandas aggregations over the price column are
modelled directly: min and max as folds, mean as sum over count, median as
the middle of the sorted list (mean of the two middles for even length),
idxmin as the first index attaining the minimum. -/

/-- The price aggregate dict of flights.py lines 174-179. -/
structure PriceStats where
  min : ℚ
  max : ℚ
  average : ℚ
  median : ℚ
deriving DecidableEq, Repr

/-- Model of pandas Series.min over a non-empty price column. -/
def listMin (p : ℚ) (ps : List ℚ) : ℚ := ps.foldl min p

/-- Model of pandas Series.max over a non-empty price column. -/
def listMax (p : ℚ) (ps : List ℚ) : ℚ := ps.foldl max p

/-- Model of pandas Series.mean over a non-empty price column. -/
def listMean (p : ℚ) (ps : List ℚ) : ℚ :=
  (p :: ps).sum / ((p :: ps).length : ℚ)

/-- Model of pandas Series.median over a non-empty price column: middle of
the sorted values, or the mean of the two middles for an even count. -/
def listMedian (p : ℚ) (ps : List ℚ) : ℚ :=
  let s := List.insertionSort (fun a b => a ≤ b) (p :: ps)
  let n := s.length
  if n % 2 = 1 then s.getD (n / 2) 0
  else (s.getD (n / 2 - 1) 0 + s.getD (n / 2) 0) / 2

/-- The four price aggregates of flights.py lines 174-179. -/
def pandas_price_stats (p : ℚ) (ps : List ℚ) : PriceStats :=
  { min := listMin p ps, max := listMax p ps, average := listMean p ps,
    median := listMedian p ps }

/-- Model of df.loc with the result of Series.idxmin (flights.py line 182):
the first row attaining the minimal value of f. -/
def argminFirst (f : FlightRecord → ℚ) (x : FlightRecord)
    (xs : List FlightRecord) : FlightRecord :=
  xs.foldl (fun best y => if f y < f best then y else best) x

/-- Model of _perform_basic_analysis, flights.py lines 167-213.  On an empty
flight list the frame has no price column and the df access of line 175
raises KeyError.  On a non-empty list the aggregates and the cheapest row
are computed, the insights dict of lines 185-202 is assembled, and then
line 206 evaluates FlightInsights(**insights): flights.py imports only
AnalysisRequest and AnalysisResponse from app.models.analysis, so the name
FlightInsights is unbound and the construction raises NameError before any
response is built. -/
def perform_basic_analysis (flights : List FlightRecord) :
    Except PyErr AnalysisResponse :=
  match flights with
  | [] => Except.error (PyErr.keyError "price".data)
  | f :: fs =>
      let _price_stats := pandas_price_stats f.price (fs.map (fun r => r.price))
      let _cheapest := argminFirst (fun r => r.price) f fs
      Except.error (PyErr.nameError "FlightInsights".data)

lemma listMin_le (p : ℚ) (ps : List ℚ) : ∀ x ∈ p :: ps, listMin p ps ≤ x := by
  induction ps generalizing p with
  | nil =>
      intro x hx
      rcases List.mem_cons.mp hx with rfl | hx
      · exact le_refl x
      · simp at hx
  | cons q qs ih =>
      intro x hx
      have hhead : listMin p (q :: qs) ≤ min p q :=
        ih (min p q) (min p q) (List.mem_cons_self _ _)
      rcases List.mem_cons.mp hx with rfl | hx
      · exact hhead.trans (min_le_left _ _)
      rcases List.mem_cons.mp hx with rfl | hx
      · exact hhead.trans (min_le_right _ _)
      · exact ih (min p q) x (List.mem_cons_of_mem _ hx)

lemma le_listMax (p : ℚ) (ps : List ℚ) : ∀ x ∈ p :: ps, x ≤ listMax p ps := by
  induction ps generalizing p with
  | nil =>
      intro x hx
      rcases List.mem_cons.mp hx with rfl | hx
      · exact le_refl x
      · simp at hx
  | cons q qs ih =>
      intro x hx
      have hhead : max p q ≤ listMax p (q :: qs) :=
        ih (max p q) (max p q) (List.mem_cons_self _ _)
      rcases List.mem_cons.mp hx with rfl | hx
      · exact (le_max_left _ _).trans hhead
      rcases List.mem_cons.mp hx with rfl | hx
      · exact (le_max_right _ _).trans hhead
      · exact ih (max p q) x (List.mem_cons_of_mem _ hx)

lemma listMin_mem (p : ℚ) (ps : List ℚ) : listMin p ps ∈ p :: ps := by
  induction ps generalizing p with
  | nil => exact List.mem_cons_self _ _
  | cons q qs ih =>
      have h := ih (min p q)
      rcases List.mem_cons.mp h with heq | hmem
      · show listMin (min p q) qs ∈ p :: q :: qs
        rw [heq]
        rcases min_choice p q with h | h <;> rw [h]
        · exact List.mem_cons_self _ _
        · exact List.mem_cons_of_mem _ (List.mem_cons_self _ _)
      · exact List.mem_cons_of_mem _ (List.mem_cons_of_mem _ hmem)

lemma listMean_bounds (p : ℚ) (ps : List ℚ) :
    listMin p ps ≤ listMean p ps ∧ listMean p ps ≤ listMax p ps := by
  have hlen : (0 : ℚ) < ((p :: ps).length : ℚ) := by
    exact_mod_cast Nat.succ_pos ps.length
  constructor
  · have hsum : ((p :: ps).length : ℚ) * listMin p ps ≤ (p :: ps).sum := by
      have h := List.card_nsmul_le_sum (p :: ps) (listMin p ps) (by
        intro x hx
        exact listMin_le p ps x hx)
      simpa [nsmul_eq_mul] using h
    rw [listMean, le_div_iff₀ hlen]
    linarith
  · have hsum : (p :: ps).sum ≤ ((p :: ps).length : ℚ) * listMax p ps := by
      have h := List.sum_le_card_nsmul (p :: ps) (listMax p ps) (by
        intro x hx
        exact le_listMax p ps x hx)
      simpa [nsmul_eq_mul] using h
    rw [listMean, div_le_iff₀ hlen]
    linarith

lemma sorted_mem_of_getD (p : ℚ) (ps : List ℚ) (i : Nat)
    (hi : i < (List.insertionSort (fun a b => a ≤ b) (p :: ps)).length) :
    (List.insertionSort (fun a b => a ≤ b) (p :: ps)).getD i 0 ∈ p :: ps := by
  rw [List.getD_eq_getElem _ _ hi]
  exact (List.perm_insertionSort _ _).mem_iff.mp (List.getElem_mem _)

lemma listMedian_bounds (p : ℚ) (ps : List ℚ) :
    listMin p ps ≤ listMedian p ps ∧ listMedian p ps ≤ listMax p ps := by
  have hlen : (List.insertionSort (fun a b => a ≤ b) (p :: ps)).length =
      ps.length + 1 := by
    rw [List.Perm.length_eq (List.perm_insertionSort _ _)]
    rfl
  rw [listMedian]
  by_cases hpar :
      (List.insertionSort (fun a b => a ≤ b) (p :: ps)).length % 2 = 1
  · simp only [hpar, if_pos]
    have hi : (List.insertionSort (fun a b => a ≤ b) (p :: ps)).length / 2 <
        (List.insertionSort (fun a b => a ≤ b) (p :: ps)).length := by
      rw [hlen]
      omega
    have hmem := sorted_mem_of_getD p ps _ hi
    exact ⟨listMin_le p ps _ hmem, le_listMax p ps _ hmem⟩
  · simp only [hpar, if_neg, if_false]
    have hge : 2 ≤ (List.insertionSort (fun a b => a ≤ b) (p :: ps)).length := by
      rw [hlen] at hpar ⊢
      omega
    have hi1 : (List.insertionSort (fun a b => a ≤ b) (p :: ps)).length / 2 - 1 <
        (List.insertionSort (fun a b => a ≤ b) (p :: ps)).length := by omega
    have hi2 : (List.insertionSort (fun a b => a ≤ b) (p :: ps)).length / 2 <
        (List.insertionSort (fun a b => a ≤ b) (p :: ps)).length := by omega
    have hm1 := sorted_mem_of_getD p ps _ hi1
    have hm2 := sorted_mem_of_getD p ps _ hi2
    have h1a := listMin_le p ps _ hm1
    have h2a := listMin_le p ps _ hm2
    have h1b := le_listMax p ps _ hm1
    have h2b := le_listMax p ps _ hm2
    constructor <;> [linarith; linarith]

lemma argminFirst_spec (f : FlightRecord → ℚ) (x : FlightRecord)
    (xs : List FlightRecord) :
    argminFirst f x xs ∈ x :: xs ∧
      f (argminFirst f x xs) = listMin (f x) (xs.map f) := by
  induction xs generalizing x with
  | nil => exact ⟨List.mem_cons_self _ _, rfl⟩
  | cons y ys ih =>
      have hstep : argminFirst f x (y :: ys) =
          argminFirst f (if f y < f x then y else x) ys := rfl
      by_cases h : f y < f x
      · obtain ⟨hmem, hval⟩ := ih y
        refine ⟨?_, ?_⟩
        · rw [hstep, if_pos h]
          rcases List.mem_cons.mp hmem with heq | hmem'
          · rw [heq]
            exact List.mem_cons_of_mem _ (List.mem_cons_self _ _)
          · exact List.mem_cons_of_mem _ (List.mem_cons_of_mem _ hmem')
        · rw [hstep, if_pos h, hval]
          have : min (f x) (f y) = f y := min_eq_right h.le
          show listMin (f y) (ys.map f) = listMin (min (f x) (f y)) (ys.map f)
          rw [this]
      · obtain ⟨hmem, hval⟩ := ih x
        refine ⟨?_, ?_⟩
        · rw [hstep, if_neg h]
          rcases List.mem_cons.mp hmem with heq | hmem'
          · rw [heq]
            exact List.mem_cons_self _ _
          · exact List.mem_cons_of_mem _ (List.mem_cons_of_mem _ hmem')
        · rw [hstep, if_neg h, hval]
          have : min (f x) (f y) = f x := min_eq_left (not_lt.mp h)
          show listMin (f x) (ys.map f) = listMin (min (f x) (f y)) (ys.map f)
          rw [this]

/-- The statistical content of the basic analysis, shown of the very
aggregates the code computes before it hits the missing-import NameError:
the price aggregate satisfies min ≤ average ≤ max and min ≤ median ≤ max,
and the cheapest row is a row of the frame whose price equals the minimum
(the cheapest_flights list of line 196 holds exactly this one row). -/
theorem basic_analysis_stats_intended (f : FlightRecord)
    (fs : List FlightRecord) :
    (pandas_price_stats f.price (fs.map (fun r => r.price))).min ≤
      (pandas_price_stats f.price (fs.map (fun r => r.price))).average ∧
    (pandas_price_stats f.price (fs.map (fun r => r.price))).average ≤
      (pandas_price_stats f.price (fs.map (fun r => r.price))).max ∧
    (pandas_price_stats f.price (fs.map (fun r => r.price))).min ≤
      (pandas_price_stats f.price (fs.map (fun r => r.price))).median ∧
    (pandas_price_stats f.price (fs.map (fun r => r.price))).median ≤
      (pandas_price_stats f.price (fs.map (fun r => r.price))).max ∧
    argminFirst (fun r => r.price) f fs ∈ f :: fs ∧
    (argminFirst (fun r => r.price) f fs).price =
      (pandas_price_stats f.price (fs.map (fun r => r.price))).min := by
  obtain ⟨hmean1, hmean2⟩ := listMean_bounds f.price (fs.map (fun r => r.price))
  obtain ⟨hmed1, hmed2⟩ := listMedian_bounds f.price (fs.map (fun r => r.price))
  obtain ⟨hmem, hval⟩ := argminFirst_spec (fun r => r.price) f fs
  exact ⟨hmean1, hmean2, hmed1, hmed2, hmem, hval⟩

/-- A well-formed flight record as the analysis endpoints receive them. -/
def demoFlight : FlightRecord :=
  { airline := "Qantas".data
    flight_number := none
    departure_airport := "SYD".data
    arrival_airport := "DXB".data
    departure_time := "9:00 AM".data
    arrival_time := "5:00 PM".data
    duration := "14 hr".data
    price := 450
    stops := 0
    source := "scraper".data }

/-- A second well-formed flight record. -/
def demoFlight2 : FlightRecord :=
  { airline := "Emirates".data
    flight_number := none
    departure_airport := "SYD".data
    arrival_airport := "DXB".data
    departure_time := "10:15 AM".data
    arrival_time := "6:45 PM".data
    duration := "13 hr".data
    price := 520
    stops := 1
    source := "scraper".data }

/-- C8: the basic analysis never returns: on every non-empty flight list it
reaches the FlightInsights construction of flights.py line 206 and raises
NameError, the name not being imported; on the empty list it raises KeyError
at the price column.  The statistical half of the claim is established of
the aggregates the code computes on the way, in
basic_analysis_stats_intended. -/
theorem c8_basic_analysis_raises_name_error :
    perform_basic_analysis [demoFlight, demoFlight2] =
      Except.error (PyErr.nameError "FlightInsights".data) ∧
    perform_basic_analysis [] = Except.error (PyErr.keyError "price".data) := by
  exact ⟨rfl, rfl⟩

/-! ## The scrape and analysis endpoints

Source: src/app/core/flight_scraper.py lines 86-131 and
src/app/api/endpoints/flights.py lines 44-165. -/

/-- The response object the OpenAI responses.create call returns: an opaque
completion payload. -/
structure OpenAIResponse where
  payload : Str
deriving DecidableEq, Repr

/-- Shapes a scrape can hand to its caller: the flight-record list the
interface documents, or a raw OpenAI response object. -/
inductive PyValue where
  | flightList (flights : List FlightRecord)
  | openAIResponse (resp : OpenAIResponse)
deriving DecidableEq, Repr

/-- Opening line of the prompt of get_flights (flight_scraper.py
lines 108-128), which embeds the URL; the fixed instruction text that
follows plays no part in the returned shape and is elided. -/
def get_flights_prompt (url : Str) : Str := "Go to this URL: ".data ++ url

/-- Model of FlightScraper.get_flights, flight_scraper.py lines 103-131:
the live code builds an OpenAI client, issues one responses.create call on
a prompt embedding the URL, and returns the response object unchanged.
The playwright navigation and extraction pipeline below it (lines 133-198)
is commented out.  The upstream service is modelled by the function
argument. -/
def get_flights (svc : Str → OpenAIResponse) (url : Str) : PyValue :=
  PyValue.openAIResponse (svc (get_flights_prompt url))

/-- Model of FlightScraper.scrape_google_flights, flight_scraper.py
lines 86-101: build the URL and return the get_flights result.  The
docstring of the method promises a tuple of a flight data list and debug
info; the body returns the OpenAI response object. -/
def scrape_google_flights (svc : Str → OpenAIResponse)
    (p : FlightSearchParams) : PyValue :=
  get_flights svc (build_google_flights_url p)

/-- Model of the search_flights endpoint, flights.py lines 44-100.  Line 75
unpacks the scrape result into two names; the OpenAI response object is not
a pair, so the unpacking raises and the handler of lines 95-100 turns every
request into HTTP 500.  The flight-list branch models lines 77-93, reachable
only were the scrape to return a list. -/
def search_flights (svc : Str → OpenAIResponse) (p : FlightSearchParams) :
    Except PyErr (List FlightRecord) :=
  match scrape_google_flights svc p with
  | PyValue.openAIResponse _ =>
      Except.error (PyErr.httpError 500 "Error searching flights".data)
  | PyValue.flightList flights =>
      if flights.isEmpty then
        Except.error
          (PyErr.httpError 404 "No flights found for the specified criteria".data)
      else Except.ok flights

/-- C1: the scrape pipeline never produces a flight-record list: for every
query it returns the raw OpenAI response object, a value of a third shape
that is neither the documented list nor an explicit error, and the endpoint
built on it consequently fails with HTTP 500 on every query. -/
theorem c1_scrape_returns_openai_object :
    ∀ (svc : Str → OpenAIResponse) (p : FlightSearchParams),
      (∃ r, scrape_google_flights svc p = PyValue.openAIResponse r) ∧
      (∀ fs, scrape_google_flights svc p ≠ PyValue.flightList fs) ∧
      search_flights svc p =
        Except.error (PyErr.httpError 500 "Error searching flights".data) := by
  intro svc p
  refine ⟨⟨_, rfl⟩, ?_, rfl⟩
  intro fs h
  simp [scrape_google_flights, get_flights] at h

/-- Witness for C1: the theorem evaluated at an identity service and the
query SYD to DXB on 2025-08-05. -/
theorem c1_witness :
    search_flights (fun s => ⟨s⟩)
      ⟨"SYD".data, "DXB".data, "2025-08-05".data⟩ =
      Except.error (PyErr.httpError 500 "Error searching flights".data) :=
  (c1_scrape_returns_openai_object (fun s => ⟨s⟩)
    ⟨"SYD".data, "DXB".data, "2025-08-05".data⟩).2.2

/-- Model of the analyze_flights endpoint, flights.py lines 102-165.  The
second component records every argument list _perform_basic_analysis is
invoked with.  Branches: an empty list raises HTTP 400 at lines 121-125
before any analysis.  With AI requested and an analyzer configured, a
successful analyzer call is returned even though the subsequent
save_analysis_to_files raises NameError (gemini.py line 230 uses pd, never
imported there): the handler of lines 144-150 sees a non-None response and
swallows the error.  A failed analyzer call leaves response None and the
same handler raises HTTP 503, so the fallback of line 153 is not reached.
Without the AI path the basic analysis runs; its raised error becomes
HTTP 500 through lines 160-165. -/
def analyze_flights (flights : List FlightRecord) (use_ai has_analyzer : Bool)
    (ai_outcome : Except Unit AnalysisResponse) :
    Except PyErr AnalysisResponse × List (List FlightRecord) :=
  if flights.isEmpty then
    (Except.error
      (PyErr.httpError 400 "No flight data provided for analysis".data), [])
  else if use_ai && has_analyzer then
    match ai_outcome with
    | Except.ok resp => (Except.ok resp, [])
    | Except.error _ =>
        (Except.error
          (PyErr.httpError 503 "AI analysis service is currently unavailable".data),
          [])
  else
    match perform_basic_analysis flights with
    | Except.ok resp => (Except.ok resp, [flights])
    | Except.error _ =>
        (Except.error (PyErr.httpError 500 "Error analyzing flights".data),
          [flights])

/-- C2: when the AI analysis call errors on a non-empty list, the endpoint
raises HTTP 503 and the Basic Analyzer is never invoked: the local-recovery
fallback is unreachable on the error path.  And were the fallback path
taken (AI not requested), the basic analysis itself raises the
FlightInsights NameError, surfacing as HTTP 500: the claimed recovery fails
on both counts. -/
theorem c2_ai_failure_raises_503_no_fallback :
    analyze_flights [demoFlight] true true (Except.error ()) =
      (Except.error
        (PyErr.httpError 503 "AI analysis service is currently unavailable".data),
        []) ∧
    analyze_flights [demoFlight] false false (Except.error ()) =
      (Except.error (PyErr.httpError 500 "Error analyzing flights".data),
        [[demoFlight]]) := by
  exact ⟨rfl, rfl⟩

/-- C10: an empty flight list is rejected with the HTTP 400 invalid-input
error before any analysis runs, and every invocation of the basic analysis
through the endpoint carries a non-empty list: its empty-input failure
branch is unreachable through the public interface. -/
theorem c10_empty_rejected_before_analysis :
    ∀ (flights : List FlightRecord) (use_ai has_analyzer : Bool)
      (ai_outcome : Except Unit AnalysisResponse),
      (flights = [] →
        analyze_flights flights use_ai has_analyzer ai_outcome =
          (Except.error
            (PyErr.httpError 400 "No flight data provided for analysis".data),
            [])) ∧
      ∀ l ∈ (analyze_flights flights use_ai has_analyzer ai_outcome).2,
        l ≠ [] := by
  intro flights use_ai has_analyzer ai_outcome
  constructor
  · intro h
    subst h
    rfl
  · intro l hl
    by_cases he : flights.isEmpty
    · simp [analyze_flights, he] at hl
    · have hne : flights ≠ [] := by
        intro hc
        subst hc
        simp at he
      by_cases hai : (use_ai && has_analyzer) = true
      · cases ai_outcome with
        | ok resp => simp [analyze_flights, he, hai] at hl
        | error e => simp [analyze_flights, he, hai] at hl
      · cases hb : perform_basic_analysis flights with
        | ok resp =>
            simp [analyze_flights, he, hai, hb] at hl
            rw [hl]
            exact hne
        | error e =>
            simp [analyze_flights, he, hai, hb] at hl
            rw [hl]
            exact hne

/-- Witness for C10: the theorem evaluated at the empty list, and at a
singleton list along the basic-analysis path, where the recorded invocation
is the non-empty singleton. -/
theorem c10_witness :
    analyze_flights ([] : List FlightRecord) true true (Except.error ()) =
      (Except.error
        (PyErr.httpError 400 "No flight data provided for analysis".data),
        []) ∧
    ([demoFlight] : List FlightRecord) ≠ [] := by
  constructor
  · exact (c10_empty_rejected_before_analysis [] true true (Except.error ())).1
      rfl
  · refine (c10_empty_rejected_before_analysis [demoFlight] false false
      (Except.error ())).2 [demoFlight] ?_
    rw [show (analyze_flights [demoFlight] false false (Except.error ())).2 =
      [[demoFlight]] from rfl]
    exact List.mem_singleton.mpr rfl
